import Mathlib

/-!
Verification of run.py, a VUnit configuration script.

The script (src/run.py) builds a runner configuration from the command-line
arguments, registers the framework's built-in VHDL utility library, declares a
design library "dcpu16_lib" fed by the glob "src/*.vhd" and a test library
"dcpu16_test_lib" fed by the glob "src/test/*.vhd", both under the VHDL-2008
standard, and finally invokes the framework's blocking run entry point.

The external framework's calls are not part of the repository; their contracts
are modelled from the specification and marked as such below.  The script's own
control flow (the order of the calls, the names, globs and standard tags it
passes, and the absence of any exception handling) is embedded directly from
src/run.py.
-/

/-- A source-file registration: one glob pattern and one VHDL language-standard
tag, as passed to add_source_files in run.py (lines 17 and 21). -/
structure SourceSpec where
  pattern : String
  vhdl_standard : String
deriving DecidableEq

/-- A registered library: its name, its registered glob/standard pairs, and the
files those globs matched. -/
structure VLibrary where
  name : String
  specs : List SourceSpec
  files : List String
deriving DecidableEq

/-- The runner state run.py builds: the command-line arguments the configuration
was parsed from (line 5) and the ordered collection of library declarations. -/
structure VUnitState where
  argv : List String
  libraries : List VLibrary
deriving DecidableEq

/-- Modelled from the spec: the external glob facility used by add_source_files.
A star matches any (possibly empty) run of characters other than the directory
separator, so a single-level glob does not cross a directory boundary; every
other pattern character matches itself. -/
def globMatch : (p s : List Char) → Bool
  | [], s => s.isEmpty
  | c :: ps, [] => if c = '*' then globMatch ps [] else false
  | c :: ps, d :: s =>
    if c = '*' then globMatch ps (d :: s) || (d != '/' && globMatch (c :: ps) s)
    else c == d && globMatch ps s
termination_by p s => (p.length, s.length)

/-- Glob matching on strings, character by character. -/
def globMatchStr (pat s : String) : Bool := globMatch pat.toList s.toList

/-- Modelled from the spec: the runner constructor VUnit.from_argv (line 5)
parses the command-line arguments into a fresh configuration holding no
libraries yet. -/
def vunitFromArgv (args : List String) : VUnitState :=
  { argv := args, libraries := [] }

/-- Modelled from the spec: add_library registers a new, empty library under the
given name at the end of the ordered collection; each library name is unique,
so a duplicate name is an error. -/
def addLibraryOp (st : VUnitState) (nm : String) : Except String VUnitState :=
  if st.libraries.any (fun l => l.name == nm) then
    Except.error ("duplicate library name: " ++ nm)
  else
    Except.ok { st with
      libraries := st.libraries ++ [{ name := nm, specs := [], files := [] }] }

/-- Modelled from the spec: add_vhdl_builtins (line 9) registers the framework's
built-in HDL utility library. -/
def addVhdlBuiltinsOp (st : VUnitState) : Except String VUnitState :=
  addLibraryOp st "vunit_lib"

/-- Modelled from the spec: add_source_files records the glob pattern and the
language-standard tag on the named library and adds every file of the
filesystem that the glob matches; a glob that matches nothing registers no
files and raises no error. -/
def addSourceFilesOp (st : VUnitState) (nm pat std : String) (fs : List String) :
    VUnitState :=
  { st with
    libraries := st.libraries.map (fun l =>
      if l.name == nm then
        { l with
          specs := l.specs ++ [{ pattern := pat, vhdl_standard := std }],
          files := l.files ++ fs.filter (fun p => globMatchStr pat p) }
      else l) }

/-- Modelled from the spec: the status the external run entry point reports,
conventionally zero when all tests pass and non-zero otherwise. -/
def frameworkStatus (allPass : Bool) : Nat := if allPass then 0 else 1

/-- The external framework interface the script calls into, kept abstract so
that error propagation through the script can be stated for every behaviour of
the framework calls. -/
structure ExtFramework where
  from_argv : List String → Except String VUnitState
  add_vhdl_builtins : VUnitState → Except String VUnitState
  add_library : VUnitState → String → Except String VUnitState
  add_source_files : VUnitState → String → String → String → Except String VUnitState
  main : VUnitState → Except String Nat

/-- State after line 5 of run.py: the configuration built from the arguments. -/
def afterArgv (F : ExtFramework) (args : List String) : Except String VUnitState :=
  F.from_argv args

/-- State after line 9: built-in utility libraries registered. -/
def afterBuiltins (F : ExtFramework) (args : List String) : Except String VUnitState :=
  (afterArgv F args).bind F.add_vhdl_builtins

/-- State after line 14: the design library declared. -/
def afterDesignLib (F : ExtFramework) (args : List String) : Except String VUnitState :=
  (afterBuiltins F args).bind (fun vu => F.add_library vu "dcpu16_lib")

/-- State after line 17: the design sources registered. -/
def afterDesignSrc (F : ExtFramework) (args : List String) : Except String VUnitState :=
  (afterDesignLib F args).bind
    (fun vu => F.add_source_files vu "dcpu16_lib" "src/*.vhd" "2008")

/-- State after line 20: the test library declared. -/
def afterTestLib (F : ExtFramework) (args : List String) : Except String VUnitState :=
  (afterDesignSrc F args).bind (fun vu => F.add_library vu "dcpu16_test_lib")

/-- State after line 21: the test sources registered; this ends the setup phase. -/
def setupG (F : ExtFramework) (args : List String) : Except String VUnitState :=
  (afterTestLib F args).bind
    (fun vu => F.add_source_files vu "dcpu16_test_lib" "src/test/*.vhd" "2008")

/-- Line 24: the blocking run entry point, invoked after setup. -/
def runScriptG (F : ExtFramework) (args : List String) : Except String Nat :=
  (setupG F args).bind F.main

/-- The modelled framework instantiated on a concrete filesystem and a concrete
overall test outcome. -/
def specFramework (fs : List String) (allPass : Bool) : ExtFramework where
  from_argv := fun args => Except.ok (vunitFromArgv args)
  add_vhdl_builtins := addVhdlBuiltinsOp
  add_library := addLibraryOp
  add_source_files := fun st nm pat std => Except.ok (addSourceFilesOp st nm pat std fs)
  main := fun _ => Except.ok (frameworkStatus allPass)

/-- The setup phase of run.py (lines 5 to 21) on a concrete filesystem. -/
def setup (args fs : List String) : Except String VUnitState :=
  setupG (specFramework fs true) args

/-- The whole script (lines 5 to 24). -/
def runScript (args fs : List String) (allPass : Bool) : Except String Nat :=
  runScriptG (specFramework fs allPass) args

/-- Modelled from the spec: the process exit code; an uncaught exception ends
the process with the non-zero code 1, a completed run exits with the status the
framework reported. -/
def exitCode (r : Except String Nat) : Nat :=
  match r with
  | Except.ok n => n
  | Except.error _ => 1

/-- Evaluates a predicate on the final state when setup succeeded; false on an
error. -/
def okAnd (r : Except String VUnitState) (p : VUnitState → Bool) : Bool :=
  match r with
  | Except.ok st => p st
  | Except.error _ => false

/-- The library names of a setup stage, read off the state; empty on an error. -/
def stageNames (r : Except String VUnitState) : List String :=
  match r with
  | Except.ok st => st.libraries.map VLibrary.name
  | Except.error _ => []

/-- The state run.py's setup phase produces, for every argument list and every
filesystem: the built-in utility library followed by the design library and the
test library, each source library carrying its one glob, its one standard tag
and the files its glob matched. -/
theorem setup_ok (args fs : List String) :
    setup args fs = Except.ok
      { argv := args,
        libraries :=
          [ { name := "vunit_lib", specs := [], files := [] },
            { name := "dcpu16_lib",
              specs := [{ pattern := "src/*.vhd", vhdl_standard := "2008" }],
              files := fs.filter (fun p => globMatchStr "src/*.vhd" p) },
            { name := "dcpu16_test_lib",
              specs := [{ pattern := "src/test/*.vhd", vhdl_standard := "2008" }],
              files := fs.filter (fun p => globMatchStr "src/test/*.vhd" p) } ] } :=
  rfl

/-- Unfolding of the matcher on the empty pattern. -/
theorem globMatch_nilP (s : List Char) : globMatch [] s = s.isEmpty := by
  simp [globMatch]

/-- Unfolding of the matcher: a leading star against the empty string. -/
theorem globMatch_star_nilS (ps : List Char) :
    globMatch ('*' :: ps) [] = globMatch ps [] := by
  simp [globMatch]

/-- Unfolding of the matcher: a leading literal against the empty string. -/
theorem globMatch_lit_nilS (c : Char) (ps : List Char) (h : c ≠ '*') :
    globMatch (c :: ps) [] = false := by
  simp [globMatch, h]

/-- Unfolding of the matcher: a leading star against a nonempty string. -/
theorem globMatch_star_consS (ps : List Char) (d : Char) (s : List Char) :
    globMatch ('*' :: ps) (d :: s) =
      (globMatch ps (d :: s) || (d != '/' && globMatch ('*' :: ps) s)) := by
  simp [globMatch]

/-- Unfolding of the matcher: a leading literal against a nonempty string. -/
theorem globMatch_lit_consS (c : Char) (ps : List Char) (d : Char) (s : List Char)
    (h : c ≠ '*') :
    globMatch (c :: ps) (d :: s) = (c == d && globMatch ps s) := by
  simp [globMatch, h]

/-- A leading star matches exactly the strings that split into a separator-free
run followed by a match of the rest of the pattern. -/
theorem globMatch_star_iff (ps : List Char) :
    ∀ s : List Char, globMatch ('*' :: ps) s = true ↔
      ∃ u v, s = u ++ v ∧ (∀ c ∈ u, c ≠ '/') ∧ globMatch ps v = true := by
  intro s
  induction s with
  | nil =>
    rw [globMatch_star_nilS]
    constructor
    · intro h
      refine ⟨[], [], rfl, ?_, h⟩
      intro c hc
      cases hc
    · rintro ⟨u, v, huv, _, hv⟩
      obtain ⟨rfl, rfl⟩ := List.append_eq_nil.mp huv.symm
      exact hv
  | cons d s ih =>
    rw [globMatch_star_consS, Bool.or_eq_true, Bool.and_eq_true]
    constructor
    · rintro (h | ⟨hd, h⟩)
      · refine ⟨[], d :: s, rfl, ?_, h⟩
        intro c hc
        cases hc
      · obtain ⟨u, v, huv, hu, hv⟩ := ih.mp h
        refine ⟨d :: u, v, by rw [huv]; rfl, ?_, hv⟩
        intro c hc
        rcases List.mem_cons.mp hc with rfl | hc
        · exact bne_iff_ne.mp hd
        · exact hu c hc
    · rintro ⟨u, v, huv, hu, hv⟩
      cases u with
      | nil =>
        left
        simp only [List.nil_append] at huv
        rw [← huv] at hv
        exact hv
      | cons a u =>
        right
        rw [List.cons_append] at huv
        injection huv with h1 h2
        constructor
        · have hd : d ≠ '/' := by
            rw [h1]
            exact hu a (List.mem_cons_self a u)
          exact bne_iff_ne.mpr hd
        · refine ih.mpr ⟨u, v, h2, ?_, hv⟩
          intro c hc
          exact hu c (List.mem_cons_of_mem a hc)

/-- A star-free pattern matches exactly itself. -/
theorem globMatch_lit_iff (p : List Char) :
    '*' ∉ p → ∀ s : List Char, globMatch p s = true ↔ s = p := by
  induction p with
  | nil =>
    intro _ s
    rw [globMatch_nilP, List.isEmpty_iff]
  | cons c p ih =>
    intro hp s
    have hc : c ≠ '*' := fun h => hp (h ▸ List.mem_cons_self c p)
    have hp' : '*' ∉ p := fun h => hp (List.mem_cons_of_mem c h)
    cases s with
    | nil =>
      rw [globMatch_lit_nilS c p hc]
      simp
    | cons d s =>
      rw [globMatch_lit_consS c p d s hc, Bool.and_eq_true, beq_iff_eq, ih hp' s]
      constructor
      · rintro ⟨rfl, rfl⟩; rfl
      · intro h
        injection h with h1 h2
        exact ⟨h1.symm, h2⟩

/-- Peeling a star-free literal head off a pattern peels the same literal off
the matched string. -/
theorem globMatch_append_lit (pre p : List Char) :
    '*' ∉ pre → ∀ s : List Char,
      globMatch (pre ++ p) s = true ↔ ∃ t, s = pre ++ t ∧ globMatch p t = true := by
  induction pre with
  | nil =>
    intro _ s
    constructor
    · intro h; exact ⟨s, rfl, h⟩
    · rintro ⟨t, rfl, ht⟩; exact ht
  | cons c pre ih =>
    intro hpre s
    have hc : c ≠ '*' := fun h => hpre (h ▸ List.mem_cons_self c pre)
    have hpre' : '*' ∉ pre := fun h => hpre (List.mem_cons_of_mem c h)
    cases s with
    | nil =>
      rw [List.cons_append, globMatch_lit_nilS _ _ hc]
      constructor
      · intro h; cases h
      · rintro ⟨t, ht, _⟩; cases ht
    | cons d s =>
      rw [List.cons_append, globMatch_lit_consS _ _ _ _ hc, Bool.and_eq_true,
        beq_iff_eq, ih hpre' s]
      constructor
      · rintro ⟨rfl, t, rfl, ht⟩
        exact ⟨t, rfl, ht⟩
      · rintro ⟨t, heq, ht⟩
        rw [List.cons_append] at heq
        injection heq with h1 h2
        exact ⟨h1.symm, t, h2, ht⟩

/-- The design glob matches exactly the paths directly under src/ that end in
.vhd, with no further directory separator in the starred part. -/
theorem globMatch_design_iff (s : List Char) :
    globMatch ("src/*.vhd".toList) s = true ↔
      ∃ u, s = "src/".toList ++ (u ++ ".vhd".toList) ∧ ∀ c ∈ u, c ≠ '/' := by
  have h0 : ("src/*.vhd".toList : List Char) =
      "src/".toList ++ ('*' :: ".vhd".toList) := rfl
  rw [h0, globMatch_append_lit _ _ (by decide) s]
  constructor
  · rintro ⟨t, rfl, ht⟩
    obtain ⟨u, v, rfl, hu, hv⟩ := (globMatch_star_iff _ t).mp ht
    have hveq : v = ".vhd".toList := (globMatch_lit_iff _ (by decide) v).mp hv
    rw [hveq]
    exact ⟨u, rfl, hu⟩
  · rintro ⟨u, rfl, hu⟩
    refine ⟨u ++ ".vhd".toList, rfl, ?_⟩
    exact (globMatch_star_iff _ _).mpr
      ⟨u, ".vhd".toList, rfl, hu, (globMatch_lit_iff _ (by decide) _).mpr rfl⟩

/-- The test glob matches exactly the paths directly under src/test/ that end
in .vhd, with no further directory separator in the starred part. -/
theorem globMatch_test_iff (s : List Char) :
    globMatch ("src/test/*.vhd".toList) s = true ↔
      ∃ u, s = "src/test/".toList ++ (u ++ ".vhd".toList) ∧ ∀ c ∈ u, c ≠ '/' := by
  have h0 : ("src/test/*.vhd".toList : List Char) =
      "src/test/".toList ++ ('*' :: ".vhd".toList) := rfl
  rw [h0, globMatch_append_lit _ _ (by decide) s]
  constructor
  · rintro ⟨t, rfl, ht⟩
    obtain ⟨u, v, rfl, hu, hv⟩ := (globMatch_star_iff _ t).mp ht
    have hveq : v = ".vhd".toList := (globMatch_lit_iff _ (by decide) v).mp hv
    rw [hveq]
    exact ⟨u, rfl, hu⟩
  · rintro ⟨u, rfl, hu⟩
    refine ⟨u ++ ".vhd".toList, rfl, ?_⟩
    exact (globMatch_star_iff _ _).mpr
      ⟨u, ".vhd".toList, rfl, hu, (globMatch_lit_iff _ (by decide) _).mpr rfl⟩

/-- No path is matched by both glob patterns of run.py: the design glob forces
the starred run to be separator-free, while the test glob forces a separator at
that position. -/
theorem glob_disjoint_chars (s : List Char) :
    globMatch ("src/*.vhd".toList) s = true →
      globMatch ("src/test/*.vhd".toList) s = false := by
  intro h1
  cases h2 : globMatch ("src/test/*.vhd".toList) s with
  | false => rfl
  | true =>
    exfalso
    obtain ⟨u, hu_eq, hu⟩ := (globMatch_design_iff s).mp h1
    obtain ⟨w, hw_eq, _⟩ := (globMatch_test_iff s).mp h2
    rw [hu_eq] at hw_eq
    have hsplit : ("src/test/".toList : List Char) ++ (w ++ ".vhd".toList) =
        "src/".toList ++ ("test/".toList ++ (w ++ ".vhd".toList)) := by
      rw [show ("src/test/".toList : List Char) =
        "src/".toList ++ "test/".toList from rfl, List.append_assoc]
    rw [hsplit] at hw_eq
    have hmid : u ++ ".vhd".toList = "test/".toList ++ (w ++ ".vhd".toList) :=
      List.append_cancel_left hw_eq
    have hmem : '/' ∈ u ++ ".vhd".toList := by
      rw [hmid]
      exact List.mem_append.mpr (Or.inl (by decide))
    rcases List.mem_append.mp hmem with h | h
    · exact hu '/' h rfl
    · exact absurd h (by decide)

/-- Pattern disjointness, stated on strings. -/
theorem globMatchStr_disjoint (s : String) :
    (globMatchStr "src/*.vhd" s && globMatchStr "src/test/*.vhd" s) = false := by
  cases h1 : globMatchStr "src/*.vhd" s with
  | false => rfl
  | true =>
    rw [Bool.true_and]
    exact glob_disjoint_chars s.toList h1

/-- Claim C1 (counterexample): on the concrete input of an empty argument list
and an empty filesystem, setup succeeds, yet its registered-library list holds
the names vunit_lib, dcpu16_lib and dcpu16_test_lib, so it contains no library
named design and none named test, refuting the claimed names. -/
theorem c1_spec_names_absent :
    stageNames (setup [] []) = ["vunit_lib", "dcpu16_lib", "dcpu16_test_lib"] ∧
    ((["vunit_lib", "dcpu16_lib", "dcpu16_test_lib"].contains "design")
      || (["vunit_lib", "dcpu16_lib", "dcpu16_test_lib"].contains "test")) = false :=
  ⟨rfl, rfl⟩

/-- Claim C1 (amended): after setup completes, the registered-library list
contains exactly two source libraries, and their names are dcpu16_lib and
dcpu16_test_lib; the two names are distinct and both libraries are present. -/
theorem c1_two_source_libraries_named (args fs : List String) :
    okAnd (setup args fs) (fun st =>
      ((st.libraries.filter (fun l => !l.specs.isEmpty)).map VLibrary.name
          == ["dcpu16_lib", "dcpu16_test_lib"]) &&
      (st.libraries.map VLibrary.name).contains "dcpu16_lib" &&
      (st.libraries.map VLibrary.name).contains "dcpu16_test_lib" &&
      !("dcpu16_lib" == "dcpu16_test_lib")) = true := by
  rw [setup_ok]
  rfl

/-- Claim C2: when no file of the filesystem matches either glob pattern, the
setup phase succeeds (raises no error) and every registered library carries an
empty file list. -/
theorem c2_empty_glob_registers_empty (args fs : List String)
    (h : fs.all (fun p =>
      !globMatchStr "src/*.vhd" p && !globMatchStr "src/test/*.vhd" p) = true) :
    okAnd (setup args fs) (fun st =>
      st.libraries.all (fun l => l.files.isEmpty)) = true := by
  rw [setup_ok]
  have hall := List.all_eq_true.mp h
  have h1 : fs.filter (fun p => globMatchStr "src/*.vhd" p) = [] := by
    refine List.filter_eq_nil_iff.mpr ?_
    intro a ha
    have hb := hall a ha
    simp only [Bool.and_eq_true, Bool.not_eq_true'] at hb
    simp [hb.1]
  have h2 : fs.filter (fun p => globMatchStr "src/test/*.vhd" p) = [] := by
    refine List.filter_eq_nil_iff.mpr ?_
    intro a ha
    have hb := hall a ha
    simp only [Bool.and_eq_true, Bool.not_eq_true'] at hb
    simp [hb.2]
  simp [okAnd, h1, h2]

/-- Claim C2 witness: the concrete instance on the empty filesystem. -/
theorem c2_empty_glob_witness :
    ([] : List String).all (fun p =>
      !globMatchStr "src/*.vhd" p && !globMatchStr "src/test/*.vhd" p) = true ∧
    okAnd (setup [] []) (fun st =>
      st.libraries.all (fun l => l.files.isEmpty)) = true :=
  ⟨rfl, c2_empty_glob_registers_empty [] [] rfl⟩

/-- The library-name lists at the successive stages of run.py's setup. -/
def setupStageNames (args fs : List String) : List (List String) :=
  [stageNames (afterArgv (specFramework fs true) args),
   stageNames (afterBuiltins (specFramework fs true) args),
   stageNames (afterDesignLib (specFramework fs true) args),
   stageNames (afterDesignSrc (specFramework fs true) args),
   stageNames (afterTestLib (specFramework fs true) args),
   stageNames (setupG (specFramework fs true) args)]

/-- Claim C4: at every stage of setup, and at its end, the ordered collection
of library declarations carries pairwise distinct names. -/
theorem c4_library_names_unique_throughout (args fs : List String) :
    setupStageNames args fs =
      [[], ["vunit_lib"], ["vunit_lib", "dcpu16_lib"], ["vunit_lib", "dcpu16_lib"],
       ["vunit_lib", "dcpu16_lib", "dcpu16_test_lib"],
       ["vunit_lib", "dcpu16_lib", "dcpu16_test_lib"]] ∧
    ([[], ["vunit_lib"], ["vunit_lib", "dcpu16_lib"], ["vunit_lib", "dcpu16_lib"],
       ["vunit_lib", "dcpu16_lib", "dcpu16_test_lib"],
       ["vunit_lib", "dcpu16_lib", "dcpu16_test_lib"]].all
        (fun ns => decide ns.Nodup)) = true :=
  ⟨rfl, by decide⟩

/-- Claim C9: every source registration setup performs carries the VHDL-2008
language-standard tag. -/
theorem c9_all_sources_vhdl_2008 (args fs : List String) :
    okAnd (setup args fs) (fun st =>
      st.libraries.all (fun l =>
        l.specs.all (fun sp => sp.vhdl_standard == "2008"))) = true := by
  rw [setup_ok]
  rfl

/-- The externally visible steps of run.py, one constructor per kind of call
the script makes. -/
inductive Event where
  | configured (args : List String)
  | builtinsAdded
  | libraryAdded (nm : String)
  | sourcesAdded (nm pat std : String)
  | runInvoked
  | exited (code : Nat)
deriving DecidableEq

/-- True exactly on the two registration step kinds. -/
def isRegistration (e : Event) : Bool :=
  match e with
  | Event.libraryAdded _ => true
  | Event.sourcesAdded _ _ _ => true
  | _ => false

/-- True exactly on the run step. -/
def isRunInvoked (e : Event) : Bool :=
  match e with
  | Event.runInvoked => true
  | _ => false

/-- True exactly on library declarations. -/
def isLibraryAdded (e : Event) : Bool :=
  match e with
  | Event.libraryAdded _ => true
  | _ => false

/-- True exactly on source-file registrations. -/
def isSourcesAdded (e : Event) : Bool :=
  match e with
  | Event.sourcesAdded _ _ _ => true
  | _ => false

/-- run.py with its steps logged: the same calls, in the same order, as the
plain embedding, each appending its event as it happens. -/
def runTraced (args fs : List String) (allPass : Bool) :
    Except String (Nat × List Event) := do
  let vu := vunitFromArgv args
  let tr := [Event.configured args]
  let vu ← addVhdlBuiltinsOp vu
  let tr := tr ++ [Event.builtinsAdded]
  let vu ← addLibraryOp vu "dcpu16_lib"
  let tr := tr ++ [Event.libraryAdded "dcpu16_lib"]
  let vu := addSourceFilesOp vu "dcpu16_lib" "src/*.vhd" "2008" fs
  let tr := tr ++ [Event.sourcesAdded "dcpu16_lib" "src/*.vhd" "2008"]
  let vu ← addLibraryOp vu "dcpu16_test_lib"
  let tr := tr ++ [Event.libraryAdded "dcpu16_test_lib"]
  let _ := addSourceFilesOp vu "dcpu16_test_lib" "src/test/*.vhd" "2008" fs
  let tr := tr ++ [Event.sourcesAdded "dcpu16_test_lib" "src/test/*.vhd" "2008"]
  let tr := tr ++ [Event.runInvoked]
  let code := frameworkStatus allPass
  let tr := tr ++ [Event.exited code]
  pure (code, tr)

/-- The step trace of a run; empty on an error. -/
def traceOf (args fs : List String) (allPass : Bool) : List Event :=
  match runTraced args fs allPass with
  | Except.ok pr => pr.2
  | Except.error _ => []

/-- Claim C7: on every run the script performs, in this fixed order,
configuration from the arguments, the builtin registration, the two library
declarations each followed by its source registration, then the run call and
the exit; and after the run step the trace holds no registration step. -/
theorem c7_fixed_step_order (args fs : List String) (allPass : Bool) :
    runTraced args fs allPass = Except.ok (frameworkStatus allPass,
      [Event.configured args, Event.builtinsAdded,
       Event.libraryAdded "dcpu16_lib",
       Event.sourcesAdded "dcpu16_lib" "src/*.vhd" "2008",
       Event.libraryAdded "dcpu16_test_lib",
       Event.sourcesAdded "dcpu16_test_lib" "src/test/*.vhd" "2008",
       Event.runInvoked, Event.exited (frameworkStatus allPass)]) ∧
    (((traceOf args fs allPass).dropWhile (fun e => !isRunInvoked e)).drop 1).all
        (fun e => !isRegistration e) = true :=
  ⟨rfl, rfl⟩

/-- Claim C3: the script declares exactly two named source libraries, and each
of them is given exactly one glob pattern together with one language-standard
tag. -/
theorem c3_two_declared_libraries (args fs : List String) (allPass : Bool) :
    (traceOf args fs allPass).filter isLibraryAdded =
      [Event.libraryAdded "dcpu16_lib", Event.libraryAdded "dcpu16_test_lib"] ∧
    ((traceOf args fs allPass).filter isLibraryAdded).length = 2 ∧
    (traceOf args fs allPass).filter isSourcesAdded =
      [Event.sourcesAdded "dcpu16_lib" "src/*.vhd" "2008",
       Event.sourcesAdded "dcpu16_test_lib" "src/test/*.vhd" "2008"] :=
  ⟨rfl, rfl, rfl⟩

/-- Claim C5: the script installs no exception handler: for every behaviour of
the external framework calls, an error arising at any setup step is the whole
script's result, with the error value unchanged, and a run that ends in an
uncaught error exits the process with the non-zero code 1. -/
theorem c5_errors_propagate_unhandled (F : ExtFramework) (args : List String)
    (e : String) :
    (afterArgv F args = Except.error e → runScriptG F args = Except.error e) ∧
    (afterBuiltins F args = Except.error e → runScriptG F args = Except.error e) ∧
    (afterDesignLib F args = Except.error e → runScriptG F args = Except.error e) ∧
    (afterDesignSrc F args = Except.error e → runScriptG F args = Except.error e) ∧
    (afterTestLib F args = Except.error e → runScriptG F args = Except.error e) ∧
    (setupG F args = Except.error e → runScriptG F args = Except.error e) ∧
    (runScriptG F args = Except.error e →
      exitCode (runScriptG F args) = 1 ∧ 0 < exitCode (runScriptG F args)) := by
  refine ⟨?_, ?_, ?_, ?_, ?_, ?_, ?_⟩
  · intro h
    simp only [runScriptG, setupG, afterTestLib, afterDesignSrc, afterDesignLib,
      afterBuiltins] at h ⊢
    rw [h]
    rfl
  · intro h
    simp only [runScriptG, setupG, afterTestLib, afterDesignSrc, afterDesignLib] at h ⊢
    rw [h]
    rfl
  · intro h
    simp only [runScriptG, setupG, afterTestLib, afterDesignSrc] at h ⊢
    rw [h]
    rfl
  · intro h
    simp only [runScriptG, setupG, afterTestLib] at h ⊢
    rw [h]
    rfl
  · intro h
    simp only [runScriptG, setupG] at h ⊢
    rw [h]
    rfl
  · intro h
    simp only [runScriptG] at h ⊢
    rw [h]
    rfl
  · intro h
    rw [h]
    exact ⟨rfl, Nat.one_pos⟩

/-- A framework whose library registration fails, used to exercise the
propagation theorem on a concrete run. -/
def failingFramework : ExtFramework where
  from_argv := fun args => Except.ok (vunitFromArgv args)
  add_vhdl_builtins := fun st => Except.ok st
  add_library := fun _ _ => Except.error "boom"
  add_source_files := fun st _ _ _ => Except.ok st
  main := fun _ => Except.ok 0

/-- Claim C5 witness: a concrete run whose library declaration fails ends in
exactly that error and a non-zero process exit. -/
theorem c5_errors_propagate_witness :
    runScriptG failingFramework [] = Except.error "boom" ∧
    0 < exitCode (runScriptG failingFramework []) := by
  have h := c5_errors_propagate_unhandled failingFramework [] "boom"
  have hd : afterDesignLib failingFramework [] = Except.error "boom" := rfl
  exact ⟨h.2.2.1 hd, (h.2.2.2.2.2.2 (h.2.2.1 hd)).2⟩

/-- Claim C6: the process exit code is exactly the status the framework's run
entry point reports, with no transformation by the script; the reported status
is zero when all tests pass and non-zero otherwise. -/
theorem c6_exit_code_is_framework_status (args fs : List String) (allPass : Bool) :
    runScript args fs allPass = Except.ok (frameworkStatus allPass) ∧
    exitCode (runScript args fs allPass) = frameworkStatus allPass ∧
    frameworkStatus true = 0 ∧ 0 < frameworkStatus false :=
  ⟨rfl, rfl, rfl, Nat.one_pos⟩

/-- The side effects run.py could perform on its own behalf. -/
inductive Effect where
  | fsRead (path : String)
  | fsWrite (path : String)
  | envRead (nm : String)
  | network
deriving DecidableEq

/-- Modelled from the spec: the script's own effect trace is exactly the reads
of the files its two globs matched; every further effect of the process belongs
to the external framework, not to the script. -/
def scriptOwnEffects (fs : List String) : List Effect :=
  (fs.filter (fun p => globMatchStr "src/*.vhd" p)).map Effect.fsRead ++
  (fs.filter (fun p => globMatchStr "src/test/*.vhd" p)).map Effect.fsRead

/-- True exactly on a read of a path that one of the two globs matches. -/
def isGlobRead (e : Effect) : Bool :=
  match e with
  | Effect.fsRead p => globMatchStr "src/*.vhd" p || globMatchStr "src/test/*.vhd" p
  | _ => false

/-- Claim C8: on every filesystem, each of the script's own effects is a
filesystem read of a path matched by one of its two glob patterns; in
particular the script performs no write, no environment read and no network
access of its own. -/
theorem c8_only_glob_read_effects (fs : List String) :
    (scriptOwnEffects fs).all isGlobRead = true := by
  rw [List.all_eq_true]
  intro e he
  simp only [scriptOwnEffects] at he
  rcases List.mem_append.mp he with h | h
  · obtain ⟨p, hp, rfl⟩ := List.mem_map.mp h
    have hm := (List.mem_filter.mp hp).2
    simp [isGlobRead, hm]
  · obtain ⟨p, hp, rfl⟩ := List.mem_map.mp h
    have hm := (List.mem_filter.mp hp).2
    simp [isGlobRead, hm]

/-- Pairwise, distinct libraries of a state share no registered file. -/
def filesDisjoint (st : VUnitState) : Bool :=
  st.libraries.all (fun l1 =>
    st.libraries.all (fun l2 =>
      (l1.name == l2.name) ||
        l1.files.all (fun p => l2.files.all (fun q => !(p == q)))))

/-- Claim C10: the two glob patterns are disjoint on every path, and hence on
every filesystem no file ends up registered in both the design library and the
test library. -/
theorem c10_glob_patterns_disjoint (s : String) (args fs : List String) :
    (globMatchStr "src/*.vhd" s && globMatchStr "src/test/*.vhd" s) = false ∧
    okAnd (setup args fs) filesDisjoint = true := by
  constructor
  · exact globMatchStr_disjoint s
  · have hne : ∀ p q : String, globMatchStr "src/*.vhd" p = true →
        globMatchStr "src/test/*.vhd" q = true → p ≠ q := by
      intro p q hp hq heq
      subst heq
      have hf := glob_disjoint_chars p.toList hp
      simp only [globMatchStr] at hq
      rw [hq] at hf
      exact Bool.noConfusion hf
    have hdisj : ∀ P Q : String → Bool, (∀ p q, P p = true → Q q = true → p ≠ q) →
        ((fs.filter P).all (fun p =>
          (fs.filter Q).all (fun q => !(p == q)))) = true := by
      intro P Q hPQ
      refine List.all_eq_true.mpr ?_
      intro p hp
      refine List.all_eq_true.mpr ?_
      intro q hq
      have hp2 := (List.mem_filter.mp hp).2
      have hq2 := (List.mem_filter.mp hq).2
      have hb : (p == q) = false :=
        beq_eq_false_iff_ne.mpr (hPQ p q hp2 hq2)
      rw [hb]
      rfl
    rw [setup_ok]
    show filesDisjoint _ = true
    simp only [filesDisjoint]
    refine List.all_eq_true.mpr ?_
    intro l1 hl1
    refine List.all_eq_true.mpr ?_
    intro l2 hl2
    simp only [List.mem_cons, List.not_mem_nil, or_false] at hl1 hl2
    have htriv : ∀ A : List String, A.all (fun _ => true) = true :=
      fun A => List.all_eq_true.mpr (fun _ _ => rfl)
    rcases hl1 with rfl | rfl | rfl <;> rcases hl2 with rfl | rfl | rfl
    · rfl
    · rfl
    · rfl
    · exact htriv _
    · rfl
    · exact hdisj (fun p => globMatchStr "src/*.vhd" p)
        (fun p => globMatchStr "src/test/*.vhd" p)
        (fun p q hp hq => hne p q hp hq)
    · exact htriv _
    · exact hdisj (fun p => globMatchStr "src/test/*.vhd" p)
        (fun p => globMatchStr "src/*.vhd" p)
        (fun p q hp hq => Ne.symm (hne q p hq hp))
    · rfl
